import Mathlib

/-!
Verification of `chops::wait_queue` (src/include/queue/wait_queue.hpp) against
its natural-language specification.

The queue is embedded as a sequential state machine.  A `WaitQueue α` carries:

* `hasOwnedSrc` — whether `m_stop_src : std::optional<std::stop_source>` is
  engaged (owned-source mode) or disengaged (external-token mode);
* `stopState`  — the stop state observed through `m_stop_tok`
  (`m_stop_tok.stop_requested()`);
* `elems`      — the contents of `m_data_queue` in front-to-back order
  (`push_back` appends at the tail, `front`/`pop_front` act on the head).

Each method of the C++ class is translated to an explicit state-passing
function.  Locking and condition-variable waits are part of the concurrency
machinery; in the sequential embedding an operation acts atomically on the
state, and for `push` the observable event order (cancellation read, lock
acquire, append, notify, lock release, return) is additionally modelled as an
explicit trace for the temporal claim about that order.
-/

/-- State of a `chops::wait_queue<T>` object: engagement of the owned
`std::optional<std::stop_source>` member, the stop state observed through
`m_stop_tok`, and the elements of `m_data_queue` in head-to-tail order. -/
structure WaitQueue (α : Type) where
  hasOwnedSrc : Bool
  stopState : Bool
  elems : List α
deriving DecidableEq, Repr

namespace WaitQueue

variable {α : Type}

/-- `wait_queue()` (lines 241-249): engages `m_stop_src` with a fresh
`std::stop_source` and takes `m_stop_tok` from it; `m_data_queue` is
default-constructed.  A fresh source has not had stop requested. -/
def wq_default : WaitQueue α :=
  { hasOwnedSrc := true, stopState := false, elems := [] }

/-- `wait_queue(std::stop_token)` (lines 260-267): `m_stop_src` stays
disengaged, `m_stop_tok` is the caller-supplied token (whose observed stop
state is `tokState`); `m_data_queue` is default-constructed. -/
def wq_stop_tok (tokState : Bool) : WaitQueue α :=
  { hasOwnedSrc := false, stopState := tokState, elems := [] }

/-- `wait_queue(Container&&)` (lines 289-297): engages `m_stop_src` with a
fresh source, takes `m_stop_tok` from it, and move-constructs `m_data_queue`
from the supplied container. -/
def wq_container (c : List α) : WaitQueue α :=
  { hasOwnedSrc := true, stopState := false, elems := c }

/-- `wait_queue(std::stop_token, Container&&)` (lines 311-317): `m_stop_src`
stays disengaged, `m_stop_tok` is the caller-supplied token, and
`m_data_queue` is move-constructed from the supplied container. -/
def wq_stop_tok_container (tokState : Bool) (c : List α) : WaitQueue α :=
  { hasOwnedSrc := false, stopState := tokState, elems := c }

/-- `wait_queue(size_type sz)` (lines 341-349): engages `m_stop_src`, takes
`m_stop_tok` from it, constructs `m_data_queue` from `sz` (for `std::deque`:
`sz` default-inserted elements). -/
def wq_sz [Inhabited α] (sz : Nat) : WaitQueue α :=
  { hasOwnedSrc := true, stopState := false, elems := List.replicate sz default }

/-- `wait_queue(std::stop_token stop_tok, size_type sz)` (lines 363-370).
Translated member by member in declaration order:
`m_stop_src` is absent from the member initializer list, so it is
default-initialized to the disengaged optional; the initializer of
`m_stop_tok` is `(*m_stop_src).get_token()`, which dereferences `m_stop_src`.
Dereferencing a disengaged `std::optional` is undefined behavior, embedded as
`none`; the caller-supplied `stop_tok` parameter is never used. -/
def wq_stop_tok_sz [Inhabited α] (stop_tok : Bool) (sz : Nat) :
    Option (WaitQueue α) :=
  let m_stop_src : Option Bool := none
  match m_stop_src with
  | some srcState =>
      some { hasOwnedSrc := false, stopState := srcState,
             elems := List.replicate sz default }
  | none => none

/-- What the spec prescribes for `wait_queue(std::stop_token, size_type)`:
the cancellation signal is exactly the caller-supplied token, no owned source
exists, and the container is constructed from the size argument. -/
def wq_stop_tok_sz_spec [Inhabited α] (stop_tok : Bool) (sz : Nat) :
    WaitQueue α :=
  { hasOwnedSrc := false, stopState := stop_tok,
    elems := List.replicate sz default }

/-- `request_stop()` (lines 396-403): if `m_stop_src` is engaged, forward to
`std::stop_source::request_stop`, which makes the stop state requested and
returns whether this call performed the transition; otherwise return
`false` with no effect. -/
def request_stop (s : WaitQueue α) : Bool × WaitQueue α :=
  if s.hasOwnedSrc then
    (!s.stopState, { s with stopState := true })
  else
    (false, s)

/-- `push(const T& val)` (lines 419-432): if `m_stop_tok.stop_requested()`
return `false`; otherwise (under the lock) `push_back` the value,
`notify_one`, and return `true`. -/
def push (s : WaitQueue α) (val : α) : Bool × WaitQueue α :=
  if s.stopState then
    (false, s)
  else
    (true, { s with elems := s.elems ++ [val] })

/-- `push(T&& val)` (lines 443-456): same shape as the copying overload, with
`push_back(std::move(val))`; the moved-from value lands at the tail. -/
def pushMove (s : WaitQueue α) (val : α) : Bool × WaitQueue α :=
  if s.stopState then
    (false, s)
  else
    (true, { s with elems := s.elems ++ [val] })

/-- `emplace_push(Args&&...)` (lines 474-487): if stop requested return
`false`; otherwise `emplace_back` the element the arguments construct (here
passed already constructed as `val`), `notify_one`, return `true`. -/
def emplace_push (s : WaitQueue α) (val : α) : Bool × WaitQueue α :=
  if s.stopState then
    (false, s)
  else
    (true, { s with elems := s.elems ++ [val] })

/-- `try_pop()` (lines 534-553): if `m_stop_tok.stop_requested()` return an
empty optional; under the lock, if `m_data_queue.empty()` return an empty
optional; otherwise move out `front()`, `pop_front()`, return the value. -/
def try_pop (s : WaitQueue α) : Option α × WaitQueue α :=
  if s.stopState then
    (none, s)
  else
    match s.elems with
    | [] => (none, s)
    | h :: t => (some h, { s with elems := t })

/-- `wait_and_pop()` (lines 503-521): under the lock,
`m_data_cond.wait(lk, m_stop_tok, pred)` with `pred = !m_data_queue.empty()`
returns the predicate's value: `true` whenever the queue is non-empty (even
if stop was already requested), `false` when stop is requested with the
queue still empty; with the queue empty and stop not requested the call
blocks, embedded as `none` (the sequential embedding has no second thread to
wake it).  On `false` an empty optional is returned; on `true` the head is
moved out and `pop_front` applied. -/
def wait_and_pop (s : WaitQueue α) : Option (Option α × WaitQueue α) :=
  match s.elems with
  | h :: t => some (some h, { s with elems := t })
  | [] => if s.stopState then some (none, s) else none

/-- `stop_requested()` (lines 601-606): `m_stop_tok.stop_requested()`. -/
def stop_requested (s : WaitQueue α) : Bool :=
  s.stopState

/-- `empty()` (lines 613-621): `m_data_queue.empty()` under the lock. -/
def empty (s : WaitQueue α) : Bool :=
  s.elems.isEmpty

/-- `size()` (lines 628-636): `m_data_queue.size()` under the lock. -/
def size (s : WaitQueue α) : Nat :=
  s.elems.length

/-- One call of the push family, tagged by which overload is used:
`push(const T&)`, `push(T&&)`, or `emplace_push` (with the element the
arguments construct). -/
inductive PushCall (α : Type) where
  | copy (v : α)
  | mv (v : α)
  | emp (v : α)
deriving DecidableEq, Repr

/-- Dispatch one `PushCall` to the corresponding overload. -/
def doPushCall (s : WaitQueue α) : PushCall α → Bool × WaitQueue α
  | .copy v => push s v
  | .mv v => pushMove s v
  | .emp v => emplace_push s v

/-- Run a sequence of push-family calls, collecting each call's boolean
result and threading the state. -/
def pushCallSeq (s : WaitQueue α) : List (PushCall α) → List Bool × WaitQueue α
  | [] => ([], s)
  | p :: ps =>
      let r := doPushCall s p
      let rest := pushCallSeq r.2 ps
      (r.1 :: rest.1, rest.2)

/-- The element value a push-family call carries (for `emplace_push`, the
element its arguments construct). -/
def PushCall.val : PushCall α → α
  | .copy v => v
  | .mv v => v
  | .emp v => v

/-- One pop call, chosen per call: `true` selects `wait_and_pop`, `false`
selects `try_pop`.  `none` means the call blocks (only possible for
`wait_and_pop` on an empty, unstopped queue). -/
def popChoose (s : WaitQueue α) (useWait : Bool) :
    Option (Option α × WaitQueue α) :=
  if useWait then wait_and_pop s else some (try_pop s)

/-- Run a sequence of pop calls (each `try_pop` or `wait_and_pop` per the
choice list), collecting the returned optionals; `none` if any call blocks. -/
def popSeq (s : WaitQueue α) : List Bool → Option (List (Option α) × WaitQueue α)
  | [] => some ([], s)
  | c :: cs =>
      match popChoose s c with
      | none => none
      | some (r, s₁) =>
          match popSeq s₁ cs with
          | none => none
          | some (rs, s₂) => some (r :: rs, s₂)

/-- Observable events of one `push` call, in the order they are issued. -/
inductive PushEv (α : Type) where
  | readCancel (stopped : Bool)
  | acquireLock
  | append (v : α)
  | notifyOne
  | releaseLock
  | ret (b : Bool)
deriving DecidableEq, Repr

/-- Event trace of `push(const T&)` / `push(T&&)` (lines 419-432 and
443-456), read off the source in statement order: the cancellation check
runs before the lock is taken; on the success path the `scoped_lock` is
constructed, `push_back` runs, `notify_one()` is called, `return true`
executes, and the `scoped_lock` destructor releases the mutex at scope exit
— so the notification is issued while the lock is still held. -/
def pushTrace (s : WaitQueue α) (v : α) : List (PushEv α) :=
  if s.stopState then
    [.readCancel true, .ret false]
  else
    [.readCancel false, .acquireLock, .append v, .notifyOne,
     .releaseLock, .ret true]

/-- Event trace the spec prescribes for a push (§4.4 steps 1-6): read
cancellation without the lock, acquire the lock, append at the tail,
release the lock, wake exactly one parked consumer, return success. -/
def pushTraceSpec (s : WaitQueue α) (v : α) : List (PushEv α) :=
  if s.stopState then
    [.readCancel true, .ret false]
  else
    [.readCancel false, .acquireLock, .append v, .releaseLock,
     .notifyOne, .ret true]

/-! Helper lemmas shared by the claim theorems. -/

/-- On an unstopped queue every push-family call succeeds and appends its
value at the tail, in call order. -/
theorem pushCallSeq_unstopped (ps : List (PushCall α)) (own : Bool)
    (el : List α) :
    pushCallSeq ⟨own, false, el⟩ ps
      = (List.replicate ps.length true,
         ⟨own, false, el ++ ps.map PushCall.val⟩) := by
  induction ps generalizing el with
  | nil => simp [pushCallSeq]
  | cons p ps ih =>
      cases p <;>
        simp [pushCallSeq, doPushCall, push, pushMove, emplace_push,
          PushCall.val, List.replicate_succ, ih]

/-- On a stopped queue every push-family call fails and leaves the state
unchanged. -/
theorem pushCallSeq_stopped (ps : List (PushCall α)) (s : WaitQueue α)
    (h : s.stopState = true) :
    pushCallSeq s ps = (List.replicate ps.length false, s) := by
  induction ps with
  | nil => simp [pushCallSeq]
  | cons p ps ih =>
      cases p <;>
        simp [pushCallSeq, doPushCall, push, pushMove, emplace_push, h,
          List.replicate_succ, ih]

/-- Popping an unstopped queue once per element (by `try_pop` or
`wait_and_pop`, chosen per call) returns every element, present, in order,
and drains the queue. -/
theorem popSeq_drain (cs : List Bool) (own : Bool) (el : List α)
    (h : cs.length = el.length) :
    popSeq ⟨own, false, el⟩ cs = some (el.map some, ⟨own, false, []⟩) := by
  induction cs generalizing el with
  | nil =>
      cases el with
      | nil => simp [popSeq]
      | cons e es => simp at h
  | cons c cs ih =>
      cases el with
      | nil => simp at h
      | cons e es =>
          have h' : cs.length = es.length := by simpa using h
          cases c with
          | true => simp [popSeq, popChoose, wait_and_pop, ih es h']
          | false => simp [popSeq, popChoose, try_pop, ih es h']

/-- C1: starting from an empty, unstopped queue, a sequence of n push-family
calls (push by copy or move, or emplace_push) for values v1..vn with no
intervening request_stop all succeed, and a following sequence of n pop
calls (each try_pop or wait_and_pop) returns exactly v1..vn, each present,
in that order, leaving the queue empty. -/
theorem fifo_order (s : WaitQueue α) (ps : List (PushCall α)) (cs : List Bool)
    (he : s.elems = []) (hns : s.stopState = false)
    (hlen : cs.length = ps.length) :
    (pushCallSeq s ps).fst = List.replicate ps.length true ∧
    popSeq (pushCallSeq s ps).snd cs
      = some ((ps.map PushCall.val).map some, { s with elems := [] }) := by
  obtain ⟨own, stp, el⟩ := s
  simp only at he hns
  subst he; subst hns
  rw [pushCallSeq_unstopped]
  refine ⟨rfl, ?_⟩
  have hd := popSeq_drain cs own (ps.map PushCall.val) (by simpa using hlen)
  simpa using hd

/-- C1 witness: pushes of 4, 7, 9 (one per overload) then three pops on a
fresh default-constructed queue return 4, 7, 9 in order and drain it. -/
theorem fifo_order_witness :
    (pushCallSeq (wq_default : WaitQueue Nat)
        [.copy 4, .mv 7, .emp 9]).fst = List.replicate 3 true ∧
    popSeq (pushCallSeq (wq_default : WaitQueue Nat)
        [.copy 4, .mv 7, .emp 9]).snd [false, true, false]
      = some ([some 4, some 7, some 9], ⟨true, false, []⟩) := by
  have h := fifo_order (wq_default : WaitQueue Nat)
      [.copy 4, .mv 7, .emp 9] [false, true, false] rfl rfl rfl
  simpa [wq_default] using h

/-- C2: after a request_stop call that returns true, every subsequent
push-family call (copy push, move push, or emplace_push, in any sequence)
returns false and the state — in particular the element sequence — is left
exactly as it was when the stop took effect. -/
theorem shutdown_finality (s : WaitQueue α)
    (h : (request_stop s).fst = true) (ps : List (PushCall α)) :
    pushCallSeq (request_stop s).snd ps
      = (List.replicate ps.length false, (request_stop s).snd) := by
  have hstop : (request_stop s).snd.stopState = true := by
    cases ho : s.hasOwnedSrc with
    | true => simp [request_stop, ho]
    | false => simp [request_stop, ho] at h
  exact pushCallSeq_stopped ps _ hstop

/-- C2 witness: a stopped queue holding 5 rejects a copy push, a move push
and an emplace_push, all returning false, with the state unchanged. -/
theorem shutdown_finality_witness :
    pushCallSeq (request_stop (⟨true, false, [5]⟩ : WaitQueue Nat)).snd
        [.copy 1, .mv 2, .emp 3]
      = ([false, false, false],
         (request_stop (⟨true, false, [5]⟩ : WaitQueue Nat)).snd) := by
  have h := shutdown_finality (⟨true, false, [5]⟩ : WaitQueue Nat)
      (by decide) [.copy 1, .mv 2, .emp 3]
  simpa using h

/-- C3: try_pop returns an absent optional iff stop has been requested or
the element sequence is empty (in particular, once stopped it is absent
even with elements present); every absent return leaves the state — hence
the element sequence — unchanged; on an unstopped non-empty queue it
removes and returns the head. -/
theorem try_pop_spec (s : WaitQueue α) :
    ((try_pop s).fst = none ↔ (s.stopState = true ∨ s.elems = [])) ∧
    ((try_pop s).fst = none → (try_pop s).snd = s) ∧
    (s.stopState = false → ∀ h t, s.elems = h :: t →
       try_pop s = (some h, { s with elems := t })) := by
  obtain ⟨own, stp, el⟩ := s
  cases stp <;> cases el <;> simp [try_pop]

/-- C3 witness: on an unstopped queue holding 5 then 7, try_pop removes and
returns the head 5. -/
theorem try_pop_spec_witness :
    try_pop (⟨true, false, [5, 7]⟩ : WaitQueue Nat)
      = (some 5, ⟨true, false, [7]⟩) :=
  (try_pop_spec (⟨true, false, [5, 7]⟩ : WaitQueue Nat)).2.2 rfl 5 [7] rfl

/-- C4: when the element sequence is non-empty at the call, wait_and_pop
removes and returns the head (present result) even if stop has been
requested; a returned absent result occurs only with stop requested and the
queue empty, leaving the state unchanged. -/
theorem wait_and_pop_spec (s : WaitQueue α) :
    (∀ h t, s.elems = h :: t →
        wait_and_pop s = some (some h, { s with elems := t })) ∧
    (∀ s₁, wait_and_pop s = some (none, s₁) →
        s.stopState = true ∧ s.elems = [] ∧ s₁ = s) := by
  obtain ⟨own, stp, el⟩ := s
  cases stp <;> cases el <;> simp [wait_and_pop]

/-- C4 witness: on a stopped queue still holding 3 then 8, wait_and_pop
returns the present head 3. -/
theorem wait_and_pop_spec_witness :
    wait_and_pop (⟨true, true, [3, 8]⟩ : WaitQueue Nat)
      = some (some 3, ⟨true, true, [8]⟩) :=
  (wait_and_pop_spec (⟨true, true, [3, 8]⟩ : WaitQueue Nat)).1 3 [8] rfl

/-- C5: the constructor taking an external stop token together with a size
argument never yields the queue the spec prescribes: its member initializer
dereferences the disengaged owned-source optional (undefined behavior,
embedded as none) and ignores the supplied token, so construction at the
concrete input (token with stop requested, size 3) produces no valid state,
while the spec-prescribed state installs the supplied token and a container
of 3 default elements. -/
theorem ctor_stop_tok_sz_ub :
    (wq_stop_tok_sz true 3 : Option (WaitQueue Nat)) = none ∧
    (wq_stop_tok_sz_spec true 3 : WaitQueue Nat) = ⟨false, true, [0, 0, 0]⟩ := by
  constructor <;> rfl

/-- C6: a push-family call that returns true increases size by exactly one;
a try_pop or wait_and_pop that returns a present value decreases size by
exactly one. -/
theorem size_change (s : WaitQueue α) :
    (∀ v, (push s v).fst = true → size (push s v).snd = size s + 1) ∧
    (∀ v, (pushMove s v).fst = true → size (pushMove s v).snd = size s + 1) ∧
    (∀ v, (emplace_push s v).fst = true →
        size (emplace_push s v).snd = size s + 1) ∧
    ((try_pop s).fst.isSome = true → size (try_pop s).snd + 1 = size s) ∧
    (∀ v s₁, wait_and_pop s = some (some v, s₁) → size s₁ + 1 = size s) := by
  obtain ⟨own, stp, el⟩ := s
  cases stp <;> cases el <;>
    simp [push, pushMove, emplace_push, try_pop, wait_and_pop, size]

/-- C6 witness: a successful push of 9 onto a one-element queue moves size
from 1 to 2. -/
theorem size_change_witness :
    size (push (⟨true, false, [2]⟩ : WaitQueue Nat) 9).snd
      = size (⟨true, false, [2]⟩ : WaitQueue Nat) + 1 :=
  (size_change (⟨true, false, [2]⟩ : WaitQueue Nat)).1 9 rfl

/-- C7: request_stop returns false with no effect when the owned-source
optional is disengaged (external-token mode); on an owned-source queue not
yet stopped, the first call transitions to stopped and returns true; after
any request_stop that returned true, a further request_stop returns false
with no effect and stop_requested reports true. -/
theorem request_stop_spec (s : WaitQueue α) :
    (s.hasOwnedSrc = false → request_stop s = (false, s)) ∧
    (s.hasOwnedSrc = true → s.stopState = false →
        request_stop s = (true, { s with stopState := true })) ∧
    ((request_stop s).fst = true →
        request_stop (request_stop s).snd = (false, (request_stop s).snd) ∧
        stop_requested (request_stop s).snd = true) := by
  obtain ⟨own, stp, el⟩ := s
  cases own <;> cases stp <;> simp [request_stop, stop_requested]

/-- C7 witness: the first request_stop on a fresh owned-source queue
holding 1 returns true and marks the state stopped. -/
theorem request_stop_spec_witness :
    request_stop (⟨true, false, [1]⟩ : WaitQueue Nat)
      = (true, ⟨true, true, [1]⟩) :=
  (request_stop_spec (⟨true, false, [1]⟩ : WaitQueue Nat)).2.1 rfl rfl

/-- C8: a default-constructed queue is empty, has size 0 and is not
stopped; a queue constructed from a pre-built container takes the
container's elements unchanged, so its size and emptiness are exactly those
of the supplied container. -/
theorem construction_postconditions (c : List α) :
    empty (wq_default : WaitQueue α) = true ∧
    size (wq_default : WaitQueue α) = 0 ∧
    stop_requested (wq_default : WaitQueue α) = false ∧
    (wq_container c).elems = c ∧
    size (wq_container c) = c.length ∧
    empty (wq_container c) = c.isEmpty := by
  simp [wq_default, wq_container, empty, size, stop_requested]

/-- C9: counterexample — on an unstopped queue, the event order the code
performs for a push differs from the order the claim states: the code
issues the single consumer wake-up before the lock is released, not after. -/
theorem push_trace_order_cex :
    pushTrace (⟨true, false, []⟩ : WaitQueue Nat) 0
      ≠ pushTraceSpec (⟨true, false, []⟩ : WaitQueue Nat) 0 := by
  decide

/-- C9 (amended): every successful push reads the cancellation signal
without the lock, acquires the lock, appends the value at the tail, wakes
exactly one parked consumer while still holding the lock, releases the lock
at scope exit, and returns success — the wake-up precedes the lock
release. -/
theorem push_trace_order (s : WaitQueue α) (v : α) (h : s.stopState = false) :
    push s v = (true, { s with elems := s.elems ++ [v] }) ∧
    pushTrace s v
      = [.readCancel false, .acquireLock, .append v, .notifyOne,
         .releaseLock, .ret true] := by
  constructor
  · simp [push, h]
  · simp [pushTrace, h]

/-- C9 witness: pushing 5 onto a fresh default queue succeeds, appends 5,
and produces the code's event order with the wake-up under the lock. -/
theorem push_trace_order_witness :
    push (wq_default : WaitQueue Nat) 5 = (true, ⟨true, false, [5]⟩) ∧
    pushTrace (wq_default : WaitQueue Nat) 5
      = [.readCancel false, .acquireLock, .append 5, .notifyOne,
         .releaseLock, .ret true] :=
  push_trace_order (wq_default : WaitQueue Nat) 5 rfl

/-- C10: the copying and moving push overloads are observably equivalent:
for the same state they return the same boolean and the same resulting
state, and on success the resulting element sequence is the prior sequence
with the value appended at the tail. -/
theorem push_overload_equiv (s : WaitQueue α) (v : α) :
    push s v = pushMove s v ∧
    ((push s v).fst = true → (push s v).snd.elems = s.elems ++ [v]) := by
  obtain ⟨own, stp, el⟩ := s
  cases stp <;> simp [push, pushMove]

/-- C10 witness: pushing 2 onto an unstopped queue holding 1, both
overloads agree and the result holds 1 then 2. -/
theorem push_overload_equiv_witness :
    push (⟨true, false, [1]⟩ : WaitQueue Nat) 2
        = pushMove (⟨true, false, [1]⟩ : WaitQueue Nat) 2 ∧
    (push (⟨true, false, [1]⟩ : WaitQueue Nat) 2).snd.elems = [1, 2] := by
  refine ⟨(push_overload_equiv (⟨true, false, [1]⟩ : WaitQueue Nat) 2).1, ?_⟩
  have h := (push_overload_equiv (⟨true, false, [1]⟩ : WaitQueue Nat) 2).2 rfl
  simpa using h

end WaitQueue
